import Mathlib

/-!
Shallow embedding of the retrieval core of the invoice-reimbursement RAG
system: query filter extraction, embedding generation, vector-store
operations, the invoice ingestion batch loop, and the chat orchestrator.
Each definition is translated from the corresponding Python source file.
-/

namespace InvoiceRAG

/-! ### Character helpers (Python string semantics, ASCII fragment) -/

/-- Python regex whitespace class over the ASCII range. -/
def isPyWs (c : Char) : Bool :=
  c = ' ' || c = '\t' || c = '\n' || c = '\r' || c = Char.ofNat 11 || c = Char.ofNat 12

/-- ASCII letter, the character class written A-Za-z in the source regexes. -/
def isLetter (c : Char) : Bool :=
  ('a' ≤ c && c ≤ 'z') || ('A' ≤ c && c ≤ 'Z')

/-- Characters admitted inside the captured name group: letters and whitespace. -/
def isGroupC (c : Char) : Bool := isLetter c || isPyWs c

/-- Characters that terminate the lazy name group: whitespace, comma, question mark. -/
def isTermC (c : Char) : Bool := isPyWs c || c = ',' || c = '?'

/-- Python str.strip of leading whitespace. -/
def dropLeadingWs : List Char → List Char
  | [] => []
  | c :: r => if isPyWs c then dropLeadingWs r else c :: r

/-- Python str.strip: remove leading and trailing whitespace. -/
def stripChars (l : List Char) : List Char :=
  ((dropLeadingWs ((dropLeadingWs l).reverse)).reverse)

/-- Python str.title on the ASCII fragment: the first letter of each
letter-run is uppercased, the remaining letters lowercased. -/
def titleAux : Bool → List Char → List Char
  | _, [] => []
  | prevAlpha, c :: r =>
    if isLetter c then
      (if prevAlpha then Char.toLower c else Char.toUpper c) :: titleAux true r
    else
      c :: titleAux false r

/-- Python str.title applied to a character list. -/
def titleChars (l : List Char) : List Char := titleAux false l

/-- Does the second list start with the first one? -/
def startsWithCh : List Char → List Char → Bool
  | [], _ => true
  | _ :: _, [] => false
  | p :: ps, c :: cs => p = c && startsWithCh ps cs

/-- Substring containment, leftmost scan. -/
def containsSub (needle : List Char) : List Char → Bool
  | [] => startsWithCh needle []
  | s@(_ :: rest) => startsWithCh needle s || containsSub needle rest

/-! ### The name-capture regex of chatbot_service._extract_filters_from_query

Each source pattern has the shape  kw \s+ ([A-Za-z\s]+?) (?:\s|$|,|\?)  and is
run with re.search (leftmost match).  The matcher below reproduces the
engine's behavior on that shape: the literal keyword, then a greedy
backtracking run of at least one whitespace character, then the lazy group,
which stops as soon as the next character (or the end of input) is a
terminator. -/

/-- Lazy group matcher: acc is the group captured so far.  A terminator is
tried before any extension once the group is non-empty, exactly as the
reluctant quantifier does. -/
def lazyCapture : List Char → List Char → Option (List Char)
  | [], acc => if acc.isEmpty then none else some acc
  | c :: rest, acc =>
    if !acc.isEmpty && isTermC c then some acc
    else if isGroupC c then lazyCapture rest (acc ++ [c])
    else none

/-- Length of the leading whitespace run. -/
def countWs : List Char → Nat
  | [] => 0
  | c :: r => if isPyWs c then countWs r + 1 else 0

/-- Greedy backtracking over the whitespace run: consume k characters, try
the lazy group on the rest, and give characters back one at a time on
failure.  k = 0 means the mandatory whitespace could not be matched. -/
def wsBacktrack : Nat → List Char → Option (List Char)
  | 0, _ => none
  | k + 1, cs =>
    match lazyCapture (cs.drop (k + 1)) [] with
    | some g => some g
    | none => wsBacktrack k cs

/-- Match the part of the pattern after the literal keyword. -/
def matchAfterKw (cs : List Char) : Option (List Char) :=
  wsBacktrack (countWs cs) cs

/-- re.search for one of the three name patterns: try every start position
from the left, at each one the literal keyword followed by the rest of the
pattern. -/
def searchKw (kw : List Char) : List Char → Option (List Char)
  | [] => none
  | s@(_ :: rest) =>
    if startsWithCh kw s then
      match matchAfterKw (s.drop kw.length) with
      | some g => some g
      | none => searchKw kw rest
    else searchKw kw rest

/-- The three name patterns of the source, in their attempt order. -/
def namePatterns : List (List Char) :=
  [String.data "for", String.data "by", String.data "employee"]

/-- The source loop over the name patterns: the first pattern that matches
wins and breaks out of the loop even when its capture is then discarded as
single-character noise; the surviving capture is stripped and title-cased. -/
def tryNamePatterns : List (List Char) → List Char → Option (List Char)
  | [], _ => none
  | kw :: kws, ql =>
    match searchKw kw ql with
    | some g =>
      let nm := stripChars g
      if nm.length > 1 then some (titleChars nm) else none
    | none => tryNamePatterns kws ql

/-- The status keyword table of the source, in its insertion (= iteration)
order, mapping each keyword to the status value it sets. -/
def statusKeywords : List (String × String) :=
  [("approved", "Fully Reimbursed"),
   ("declined", "Declined"),
   ("rejected", "Declined"),
   ("partial", "Partially Reimbursed"),
   ("pending", "Pending Analysis")]

/-- The source loop over the status keywords: the first keyword contained in
the lowered query sets the status and breaks. -/
def findStatusKw : List (String × String) → List Char → Option String
  | [], _ => none
  | (kw, st) :: rest, ql =>
    if containsSub kw.data ql then some st else findStatusKw rest ql

/-- ChatbotService._extract_filters_from_query: lowercases the query, tries
the three name patterns in order, then scans the status keyword table; the
result dict is rendered as an association list in insertion order. -/
def extract_filters_from_query (query : String) : List (String × String) :=
  let ql := query.data.map Char.toLower
  (match tryNamePatterns namePatterns ql with
   | some n => [("employee_name", String.mk n)]
   | none => [])
  ++
  (match findStatusKw statusKeywords ql with
   | some s => [("status", s)]
   | none => [])

/-! ### embeddings.py: batch embedding generation -/

/-- Python str.strip of a whole string. -/
def pyStrip (s : String) : String := String.mk (stripChars s.data)

/-- The sentence-transformers model.encode collaborator for batch encoding:
a function from a list of texts to a list of vectors. -/
abbrev Encoder := List String → List (List ℚ)

/-- The clean_texts comprehension of generate_embeddings: keep the stripped
form of every entry that is non-empty and not whitespace-only. -/
def clean_texts_of (texts : List String) : List String :=
  texts.filterMap fun t =>
    let s := pyStrip t
    if s = "" then none else some s

/-- EmbeddingGenerator.generate_embeddings: an empty input list returns an
empty list at once; otherwise empty or whitespace-only entries are dropped
and the survivors stripped; when nothing survives, the ValueError raised
inside the try block is re-raised wrapped in the batch failure message;
otherwise the stripped survivors are encoded in order. -/
def generate_embeddings (encode : Encoder) (texts : List String) :
    Except String (List (List ℚ)) :=
  if texts.isEmpty then .ok []
  else
    if (clean_texts_of texts).isEmpty then
      .error "Batch embedding generation failed: No valid texts provided"
    else
      .ok (encode (clean_texts_of texts))

/-- EmbeddingGenerator.generate_embedding: fails when the text is empty or
whitespace-only after trimming, otherwise encodes the stripped text. -/
def generate_embedding (encode : String → List ℚ) (text : String) :
    Except String (List ℚ) :=
  if pyStrip text = "" then
    .error "Embedding generation failed: Text cannot be empty"
  else
    .ok (encode (pyStrip text))

/-! ### vector_store.py: the ChromaDB-backed index manager

The ChromaDB collection itself is external to the repository; it is modelled
as a list of stored documents with the client's documented behavior: add
appends, get with a where clause and limit returns at most limit matching
documents, get with no arguments returns the whole collection, and delete
removes the listed ids and is a silent no-op for absent ids. -/

/-- Python values that can appear in the invoice_data dict handed to
add_invoice; Python str() is total on them. -/
inductive PyVal where
  | pynone
  | pystr (s : String)
  | pyint (n : Int)
deriving DecidableEq

/-- Python str() on the modelled values; str(None) is the text None. -/
def pyStr : PyVal → String
  | .pynone => "None"
  | .pystr s => s
  | .pyint n => toString n

/-- Python dict.get(key, default): the stored value when the key is present,
even when that value is None; the default only when the key is absent. -/
def dictGet (d : List (String × PyVal)) (k : String) (dflt : PyVal) : PyVal :=
  ((d.find? fun p => p.1 = k).map Prod.snd).getD dflt

/-- One stored ChromaDB document. -/
structure ChromaDoc where
  id : String
  embedding : List ℚ
  document : String
  metadata : List (String × String)
deriving DecidableEq

/-- The ChromaDB collection state. -/
abbrev Collection := List ChromaDoc

/-- The metadata dict built by VectorStoreManager.add_invoice: every value
passes through str(); dict.get supplies the defaults for absent keys. -/
def add_invoice_metadata (d : List (String × PyVal)) : List (String × String) :=
  [("invoice_id", pyStr (dictGet d "invoice_id" (.pystr "unknown"))),
   ("employee_name", pyStr (dictGet d "employee_name" (.pystr "unknown"))),
   ("status", pyStr (dictGet d "status" (.pystr "unknown"))),
   ("date", pyStr (dictGet d "date" (.pystr "unknown"))),
   ("amount", pyStr (dictGet d "reimbursable_amount" (.pystr "0.00"))),
   ("file_name", pyStr (dictGet d "file_name" (.pystr "unknown")))]

/-- The document_text synopsis built by add_invoice: the f-string after its
outer strip; the interior lines keep the source's twelve-space indent. -/
def add_invoice_document_text (d : List (String × PyVal)) : String :=
  "Invoice ID: " ++ pyStr (dictGet d "invoice_id" (.pystr "N/A")) ++
  "\n            Employee: " ++ pyStr (dictGet d "employee_name" (.pystr "N/A")) ++
  "\n            Status: " ++ pyStr (dictGet d "status" (.pystr "N/A")) ++
  "\n            Reason: " ++ pyStr (dictGet d "reason" (.pystr "N/A")) ++
  "\n            Amount: " ++ pyStr (dictGet d "reimbursable_amount" (.pystr "N/A"))

/-- VectorStoreManager.add_invoice: generate a fresh id (passed in here,
uuid4 in the source), build the string metadata and the synopsis, append to
the collection, return the id. -/
def add_invoice (c : Collection) (fresh_id : String)
    (invoice_data : List (String × PyVal)) (embedding : List ℚ) :
    String × Collection :=
  let doc_id := fresh_id
  let metadata := add_invoice_metadata invoice_data
  let document_text := add_invoice_document_text invoice_data
  (doc_id, c ++ [⟨doc_id, embedding, document_text, metadata⟩])

/-- Exact string-equality match of a where clause against stored metadata. -/
def metadataMatches (whereC : List (String × String))
    (md : List (String × String)) : Bool :=
  whereC.all fun f => (md.find? (fun p => p.1 = f.1)).any (fun p => p.2 = f.2)

/-- Modelled from the ChromaDB client: collection.get(where, limit) returns
at most limit documents matching the clause. -/
def collectionGet (c : Collection) (whereC : List (String × String))
    (limit : Nat) : List ChromaDoc :=
  (c.filter fun doc => metadataMatches whereC doc.metadata).take limit

/-- Modelled from the ChromaDB client: collection.get() with no arguments
returns every document of the collection. -/
def collectionGetAll (c : Collection) : List ChromaDoc := c

/-- One formatted result of the metadata search. -/
structure MetaResult where
  id : String
  document : Option String
  metadata : List (String × String)
deriving DecidableEq

/-- The where-clause construction of search_by_metadata: keep only the
filters whose value is non-empty (None filter values cannot arrive through
the string-typed interface). -/
def effective_filters (filters : List (String × String)) :
    List (String × String) :=
  filters.filter fun p => p.2 ≠ ""

/-- VectorStoreManager.search_by_metadata: keep only filters with a
non-empty value; when the remaining clause is empty, fetch the whole
collection with no limit, otherwise fetch at most n_results matches; format
each hit. -/
def search_by_metadata (c : Collection) (filters : List (String × String))
    (n_results : Nat) : List MetaResult :=
  let docs :=
    if (effective_filters filters).isEmpty then collectionGetAll c
    else collectionGet c (effective_filters filters) n_results
  docs.map fun doc => ⟨doc.id, some doc.document, doc.metadata⟩

/-- Modelled from the ChromaDB client: collection.delete(ids) removes the
listed ids and is a silent no-op for ids not present; it does not raise. -/
def collectionDelete (c : Collection) (ids : List String) : Collection :=
  c.filter fun doc => !(ids.contains doc.id)

/-- VectorStoreManager.delete_invoice: call collection.delete on the single
id and return True; False is returned only when the underlying delete
raises, which the modelled client never does. -/
def delete_invoice (c : Collection) (doc_id : String) : Bool × Collection :=
  (true, collectionDelete c [doc_id])

/-! ### invoice_service.py: the ingestion batch loop -/

/-- os.path.basename: the part after the last path separator. -/
def basenameAux : List Char → List Char → List Char
  | [], acc => acc
  | c :: r, acc => if c = '/' then basenameAux r [] else basenameAux r (acc ++ [c])

/-- os.path.basename on a string. -/
def pyBasename (p : String) : String := String.mk (basenameAux p.data [])

/-- Python str.replace of every occurrence of the four characters .pdf by
the empty string; the fuel argument bounds the recursion by the input
length, which suffices since every step consumes at least one character. -/
def replacePdfFuel : Nat → List Char → List Char
  | 0, _ => []
  | _ + 1, [] => []
  | f + 1, c :: r =>
    if startsWithCh (String.data ".pdf") (c :: r) then replacePdfFuel f (r.drop 3)
    else c :: replacePdfFuel f r

/-- The invoice_id derivation: basename(path).replace of .pdf by nothing. -/
def replacePdf (s : String) : String := String.mk (replacePdfFuel s.data.length s.data)

/-- The analysis dict returned by the LLM collaborator; each field may be
absent, in which case the call sites substitute their dict.get defaults. -/
structure LLMAnalysis where
  status : Option String
  reason : Option String
  reimbursable_amount : Option String
  total_amount : Option String
deriving DecidableEq

/-- The fallible collaborators of the ingestion pipeline: PDF text
extraction, LLM analysis, invoice embedding (over the four fields passed at
the call site), and the vector-store insert returning the document id. -/
structure IngestEnv where
  extractText : String → Except String String
  analyze : String → String → Option String → Except String LLMAnalysis
  embedInvoice : String → String → String → String → Except String (List ℚ)
  addInvoice : List (String × PyVal) → List ℚ → Except String String

/-- One per-invoice result record of the batch. -/
structure InvoiceResult where
  invoice_id : String
  employee_name : String
  file_name : String
  status : String
  reason : String
  reimbursable_amount : String
  total_amount : String
  date : String
  policy_compliance : String
  document_id : Option String
deriving DecidableEq

/-- InvoiceAnalysisService._process_single_invoice: extract the text, derive
the invoice id from the filename, analyze, embed the combined fields, insert
into the vector store, and return the formatted success record. -/
def process_single_invoice (env : IngestEnv) (today : String)
    (invoice_path employee_name : String) (policy_text : Option String) :
    Except String InvoiceResult := do
  let invoice_text ← env.extractText invoice_path
  let invoice_id := replacePdf (pyBasename invoice_path)
  let a ← env.analyze invoice_text employee_name policy_text
  let embedding ← env.embedInvoice invoice_text (a.reason.getD "")
      (a.status.getD "") employee_name
  let doc_id ← env.addInvoice
      [("invoice_id", .pystr invoice_id),
       ("employee_name", .pystr employee_name),
       ("status", .pystr (a.status.getD "Unknown")),
       ("reason", .pystr (a.reason.getD "")),
       ("reimbursable_amount", .pystr (a.reimbursable_amount.getD "0.00")),
       ("date", .pystr today),
       ("file_name", .pystr (pyBasename invoice_path))]
      embedding
  pure
    { invoice_id := invoice_id
      employee_name := employee_name
      file_name := pyBasename invoice_path
      status := a.status.getD "Unknown"
      reason := a.reason.getD "No reason provided"
      reimbursable_amount := a.reimbursable_amount.getD "0.00"
      total_amount := a.total_amount.getD "0.00"
      date := today
      policy_compliance := "Analyzed"
      document_id := some doc_id }

/-- The error record built by the per-document exception handler of
process_invoices; it has no document_id key. -/
def invoice_error_result (today invoice_path employee_name err : String) :
    InvoiceResult :=
  { invoice_id := replacePdf (pyBasename invoice_path)
    employee_name := employee_name
    file_name := pyBasename invoice_path
    status := "Analysis Failed"
    reason := "Processing error: " ++ err
    reimbursable_amount := "0.00"
    total_amount := "0.00"
    date := today
    policy_compliance := "Error"
    document_id := none }

/-- InvoiceAnalysisService.process_invoices, after ZIP extraction produced
the list of invoice file paths: each file is processed inside its own
try block, a failure being converted to the error record and the loop
continuing with the next file. -/
def process_invoices (env : IngestEnv) (today : String)
    (invoice_files : List String) (employee_name : String)
    (policy_text : Option String) : List InvoiceResult :=
  invoice_files.map fun p =>
    match process_single_invoice env today p employee_name policy_text with
    | .ok r => r
    | .error e => invoice_error_result today p employee_name e

/-! ### chatbot_service.py: context retrieval and chat orchestration -/

/-- One hit as formatted by VectorStoreManager.search_similar; the distance
entry is present but may be None when the backend omits distances. -/
structure SearchHit where
  id : String
  document : String
  metadata : List (String × String)
  distance : Option ℚ
deriving DecidableEq

/-- One context item handed to the generator. -/
structure ContextItem where
  invoice_id : String
  employee_name : String
  status : String
  amount : String
  date : String
  summary : String
  similarity : Option ℚ
deriving DecidableEq

/-- Python dict.get with a string default on string metadata. -/
def mdGet (md : List (String × String)) (k dflt : String) : String :=
  ((md.find? fun p => p.1 = k).map Prod.snd).getD dflt

/-- The per-hit formatting loop of ChatbotService._retrieve_context. -/
def format_context_item (r : SearchHit) : ContextItem :=
  { invoice_id := mdGet r.metadata "invoice_id" "Unknown"
    employee_name := mdGet r.metadata "employee_name" "Unknown"
    status := mdGet r.metadata "status" "Unknown"
    amount := mdGet r.metadata "amount" "0.00"
    date := mdGet r.metadata "date" "Unknown"
    summary := r.document
    similarity := r.distance }

/-- One entry of a session's message history. -/
structure ChatMessage where
  role : String
  content : String
  timestamp : String
deriving DecidableEq

/-- ChatContext is declared in app/models/data_models.py, which is not among
the sources; its fields follow the spec's ChatSession record. -/
structure ChatContext where
  session_id : String
  messages : List ChatMessage
  last_query : Option String
  retrieved_documents : List ContextItem
deriving DecidableEq

/-- Modelled from the spec: the lazy creation defaults of ChatContext (empty
history, no last query, no retrieved documents), from the missing
app/models/data_models.py. -/
def ChatContext.new (sid : String) : ChatContext := ⟨sid, [], none, []⟩

/-- The in-memory session map of ChatbotService. -/
abbrev SessionStore := List (String × ChatContext)

/-- Lookup of a session id in the session map. -/
def storeGet? (st : SessionStore) (sid : String) : Option ChatContext :=
  (st.find? fun p => p.1 = sid).map Prod.snd

/-- Write-back of a session into the session map, inserting when absent. -/
def storeSet (st : SessionStore) (sid : String) (c : ChatContext) :
    SessionStore :=
  if (st.find? (fun p => p.1 = sid)).isSome then
    st.map fun p => if p.1 = sid then (sid, c) else p
  else st ++ [(sid, c)]

/-- The fallible collaborators of the chat path: the query embedder, the
vector search service (which wraps index failures in SearchError and
re-raises), and the LLM response generator. -/
structure ChatEnv where
  generate_embedding : String → Except String (List ℚ)
  search_similar_invoices :
    List ℚ → List (String × String) → Nat → Except String (List SearchHit)
  generate_chat_response :
    String → List ContextItem → List ChatMessage → Except String String

/-- ChatbotService._retrieve_context: embed the query, extract filters,
search with top-5, format the hits; any failure inside the try block is
caught and an empty context list returned. -/
def retrieve_context (env : ChatEnv) (query : String) : List ContextItem :=
  match env.generate_embedding query with
  | .error _ => []
  | .ok query_embedding =>
    match env.search_similar_invoices query_embedding
        (extract_filters_from_query query) 5 with
    | .error _ => []
    | .ok search_results => search_results.map format_context_item

/-- Python negative-index slice taking the last n entries. -/
def lastN (n : Nat) (l : List α) : List α := l.drop (l.length - n)

/-- The response payload of process_chat_message. -/
structure ChatResponse where
  response : String
  session_id : String
  query : String
  timestamp : String
  context_used : Bool
  retrieved_count : Nat
deriving DecidableEq

/-- The session used by process_chat_message: the stored one when the id is
known, the lazily created fresh one otherwise. -/
def sessionFor (st : SessionStore) (sid : String) : ChatContext :=
  match storeGet? st sid with
  | some s => s
  | none => ChatContext.new sid

/-- ChatbotService.process_chat_message: get or lazily create the session,
append the user message, retrieve context, call the generator on the last
ten history entries; on generator failure the ChatError propagates with the
user message already recorded; on success append the assistant message,
update last_query and retrieved_documents, and return the payload. -/
def process_chat_message (env : ChatEnv) (now : String) (st : SessionStore)
    (message session_id : String) :
    Except String ChatResponse × SessionStore :=
  let session := sessionFor st session_id
  let user_message : ChatMessage := ⟨"user", message, now⟩
  let s1 := { session with messages := session.messages ++ [user_message] }
  let context_data := retrieve_context env message
  match env.generate_chat_response message context_data (lastN 10 s1.messages) with
  | .error e =>
    (.error ("Chat processing failed: " ++ e), storeSet st session_id s1)
  | .ok response =>
    let assistant_message : ChatMessage := ⟨"assistant", response, now⟩
    let s2 :=
      { s1 with
        messages := s1.messages ++ [assistant_message]
        last_query := some message
        retrieved_documents := context_data }
    (.ok
      { response := response
        session_id := session_id
        query := message
        timestamp := now
        context_used := decide (0 < context_data.length)
        retrieved_count := context_data.length },
     storeSet st session_id s2)

/-! ### embeddings.py: compute_similarity, over the reals

The source computes with IEEE doubles; the model works over the real
numbers, the exact semantics the numerical claims are about. -/

/-- np.dot of two vectors, over the reals. -/
def dotR (a b : List ℝ) : ℝ := ((a.zip b).map fun p => p.1 * p.2).sum

/-- The sum of squares of a vector, the square of np.linalg.norm. -/
def sumSq (v : List ℝ) : ℝ := dotR v v

/-- np.linalg.norm: the Euclidean norm. -/
noncomputable def normR (v : List ℝ) : ℝ := Real.sqrt (sumSq v)

open Classical in
/-- EmbeddingGenerator.compute_similarity: zero when either norm is zero,
otherwise the dot product divided by the product of the norms. -/
noncomputable def compute_similarity (a b : List ℝ) : ℝ :=
  if normR a = 0 ∨ normR b = 0 then 0
  else dotR a b / (normR a * normR b)

/-! ### Spec-side definition and concrete instances used by the claims -/

/-- The status selection exactly as the spec words it: scan the lowered
query for the keywords approved, declined, rejected, partial, pending in
that fixed priority order; the first keyword present determines the status.
Stated separately from the code's loop so the two can be compared. -/
def statusSpec (ql : List Char) : Option String :=
  if containsSub (String.data "approved") ql then some "Fully Reimbursed"
  else if containsSub (String.data "declined") ql then some "Declined"
  else if containsSub (String.data "rejected") ql then some "Declined"
  else if containsSub (String.data "partial") ql then some "Partially Reimbursed"
  else if containsSub (String.data "pending") ql then some "Pending Analysis"
  else none

/-- A degenerate but length-preserving encoder used to instantiate batch
embedding statements. -/
def encLen : Encoder := fun l => l.map fun _ => ([] : List ℚ)

/-- A concrete stored document for instantiating collection statements. -/
def docA : ChromaDoc := ⟨"id-a", [], "doc a", [("employee_name", "Alice")]⟩

/-- A second concrete stored document. -/
def docB : ChromaDoc := ⟨"id-b", [], "doc b", [("employee_name", "Bob")]⟩

/-- A chat environment whose query embedder always fails. -/
def c2envE : ChatEnv :=
  ⟨fun _ => .error "embedding boom",
   fun _ _ _ => .ok [],
   fun _ _ _ => .ok "answer"⟩

/-- A chat environment whose embedder succeeds but whose index search always
fails. -/
def c2envS : ChatEnv :=
  ⟨fun _ => .ok [1],
   fun _ _ _ => .error "search boom",
   fun _ _ _ => .ok "answer"⟩

/-- A chat environment where every collaborator succeeds. -/
def c10env : ChatEnv :=
  ⟨fun _ => .error "no embedding backend",
   fun _ _ _ => .ok [],
   fun _ _ _ => .ok "hello there"⟩

/-- An ingestion environment in which extraction fails exactly on the file
b.pdf and every other collaborator succeeds. -/
def c3env : IngestEnv :=
  { extractText := fun p =>
      if p = "b.pdf" then .error "PDF extraction failed" else .ok "some invoice text"
    analyze := fun _ _ _ =>
      .ok ⟨some "Fully Reimbursed", some "within policy", some "100.00", some "100.00"⟩
    embedInvoice := fun _ _ _ _ => .ok [1]
    addInvoice := fun _ _ => .ok "doc-1" }

theorem dotR_cons (x y : ℝ) (a b : List ℝ) :
    dotR (x :: a) (y :: b) = x * y + dotR a b := by
  simp [dotR]

theorem sumSq_nil : sumSq ([] : List ℝ) = 0 := rfl

theorem sumSq_cons (x : ℝ) (v : List ℝ) :
    sumSq (x :: v) = x * x + sumSq v := by
  simp [sumSq, dotR]

theorem sumSq_nonneg (v : List ℝ) : 0 ≤ sumSq v := by
  induction v with
  | nil => simp [sumSq_nil]
  | cons x v IH =>
    rw [sumSq_cons]
    have := mul_self_nonneg x
    linarith

/-- Cauchy-Schwarz for the list dot product. -/
theorem dotR_sq_le (a : List ℝ) : ∀ b : List ℝ,
    (dotR a b) ^ 2 ≤ sumSq a * sumSq b := by
  induction a with
  | nil => intro b; simp [dotR, sumSq]
  | cons x a IH =>
    intro b
    cases b with
    | nil => simp [dotR, sumSq_nil]
    | cons y b =>
      have h := IH b
      have hA := sumSq_nonneg a
      have hB := sumSq_nonneg b
      rw [dotR_cons, sumSq_cons, sumSq_cons]
      rcases lt_or_eq_of_le hA with hA0 | hA0
      · nlinarith [h, hB, sq_nonneg (dotR a b * x - sumSq a * y),
          mul_nonneg (add_nonneg (mul_self_nonneg x) hA) (sub_nonneg.mpr h)]
      · have h2 : (dotR a b) ^ 2 = 0 := by nlinarith [h, sq_nonneg (dotR a b)]
        have hd : dotR a b = 0 := by
          exact sq_eq_zero_iff.mp h2
        rw [hd, ← hA0]
        nlinarith [mul_self_nonneg x, mul_self_nonneg y, hB,
          mul_nonneg (mul_self_nonneg x) hB]

theorem normR_nonneg (v : List ℝ) : 0 ≤ normR v := Real.sqrt_nonneg _

theorem normR_eq_zero_iff (v : List ℝ) : normR v = 0 ↔ sumSq v = 0 :=
  Real.sqrt_eq_zero (sumSq_nonneg v)

theorem mul_self_normR (v : List ℝ) : normR v * normR v = sumSq v :=
  Real.mul_self_sqrt (sumSq_nonneg v)

theorem abs_dotR_le (a b : List ℝ) : |dotR a b| ≤ normR a * normR b := by
  have h := dotR_sq_le a b
  calc |dotR a b| = Real.sqrt ((dotR a b) ^ 2) := (Real.sqrt_sq_eq_abs _).symm
    _ ≤ Real.sqrt (sumSq a * sumSq b) := Real.sqrt_le_sqrt h
    _ = normR a * normR b := by
        rw [normR, normR, Real.sqrt_mul (sumSq_nonneg a)]

/-- A vector with a non-zero entry has positive sum of squares. -/
theorem sumSq_pos_of_mem (v : List ℝ) (x : ℝ) (hx : x ∈ v) (hx0 : x ≠ 0) :
    0 < sumSq v := by
  induction v with
  | nil => cases hx
  | cons y v IH =>
    rw [sumSq_cons]
    rcases List.mem_cons.mp hx with h | h
    · have : 0 < y * y := by
        rw [← h]
        exact mul_self_pos.mpr hx0
      have := sumSq_nonneg v
      linarith
    · have := IH h
      have := mul_self_nonneg y
      linarith

/-! ### Session store lemmas -/

theorem storeGet?_map_set (st : SessionStore) (sid : String) (c : ChatContext)
    (h : (st.find? fun p => p.1 = sid).isSome = true) :
    storeGet? (st.map fun p => if p.1 = sid then (sid, c) else p) sid = some c := by
  induction st with
  | nil => simp at h
  | cons p st IH =>
    by_cases hp : p.1 = sid
    · simp [storeGet?, hp]
    · have h' : (st.find? fun q => q.1 = sid).isSome = true := by
        simpa [List.find?_cons_of_neg, hp] using h
      simpa [storeGet?, hp] using IH h'

theorem storeGet?_append_new (st : SessionStore) (sid : String) (c : ChatContext)
    (h : (st.find? fun p => p.1 = sid) = none) :
    storeGet? (st ++ [(sid, c)]) sid = some c := by
  simp [storeGet?, List.find?_append, h]

theorem storeGet?_storeSet (st : SessionStore) (sid : String) (c : ChatContext) :
    storeGet? (storeSet st sid c) sid = some c := by
  unfold storeSet
  by_cases h : (st.find? fun p => p.1 = sid).isSome = true
  · rw [if_pos h]
    exact storeGet?_map_set st sid c h
  · rw [if_neg (by simpa using h)]
    exact storeGet?_append_new st sid c
      (Option.not_isSome_iff_eq_none.mp (by simpa using h))

/-! ### The claims -/

/-- Claim C1 counterexample: on the spec's example query the lazy name group
of the regex stops at the first whitespace, so the extracted employee name
is the single word John, not the full name John Smith. -/
theorem extract_filters_example_counterexample :
    mdGet (extract_filters_from_query
        "Show me invoices for John Smith that were declined")
      "employee_name" "" = "John"
    ∧ ("John" : String) ≠ "John Smith" := by
  constructor
  · decide
  · decide

/-- Claim C1 amended: the employee-name patterns capture only the first word
after the keyword (the reluctant group stops at the first whitespace),
title-cased; the example query yields John and Declined, and a multi-word
name after by likewise keeps only its first word. -/
theorem extract_filters_example_first_word :
    extract_filters_from_query "Show me invoices for John Smith that were declined"
      = [("employee_name", "John"), ("status", "Declined")]
    ∧ extract_filters_from_query "invoices submitted by Mary Jane Watson"
      = [("employee_name", "Mary")] := by
  constructor
  · decide
  · decide

/-- Claim C2: if generating the query embedding fails, or the embedding
succeeds and the subsequent index search fails, the context-retrieval step
returns the empty context list instead of propagating the error. -/
theorem retrieve_context_error_empty (env : ChatEnv) (query : String) :
    (∀ e, env.generate_embedding query = .error e →
      retrieve_context env query = []) ∧
    (∀ emb e, env.generate_embedding query = .ok emb →
      env.search_similar_invoices emb (extract_filters_from_query query) 5
        = .error e →
      retrieve_context env query = []) := by
  constructor
  · intro e he
    unfold retrieve_context
    rw [he]
  · intro emb e hok hse
    simp [retrieve_context, hok, hse]

/-- Claim C2 witness: concrete environments in which the embedder fails,
respectively the search fails, both retrieving an empty context. -/
theorem retrieve_context_error_empty_witness :
    retrieve_context c2envE "show my invoices" = []
    ∧ retrieve_context c2envS "show my invoices" = [] :=
  ⟨(retrieve_context_error_empty c2envE "show my invoices").1
      "embedding boom" rfl,
   (retrieve_context_error_empty c2envS "show my invoices").2
      [1] "search boom" rfl rfl⟩

/-- Claim C8: the query sets at most one status filter, and the status
entries of the extracted filter list are exactly those selected by scanning
the lowered query for the keywords approved, declined, rejected, partial,
pending in that fixed priority order, with the corresponding status
values. -/
theorem status_filter_priority (query : String) :
    ((extract_filters_from_query query).filter fun p => p.1 = "status").length ≤ 1
    ∧ ((extract_filters_from_query query).filter fun p => p.1 = "status")
      = (statusSpec (query.data.map Char.toLower)).toList.map fun s => ("status", s) := by
  have hfs : findStatusKw statusKeywords (query.data.map Char.toLower)
      = statusSpec (query.data.map Char.toLower) := rfl
  have hne : ¬ (("employee_name" : String) = "status") := by decide
  have h2 : ((extract_filters_from_query query).filter fun p => p.1 = "status")
      = (statusSpec (query.data.map Char.toLower)).toList.map fun s => ("status", s) := by
    simp only [extract_filters_from_query]
    rw [hfs]
    rcases tryNamePatterns namePatterns (query.data.map Char.toLower) with _ | n
      <;> rcases statusSpec (query.data.map Char.toLower) with _ | s
      <;> simp [hne]
  refine ⟨?_, h2⟩
  rw [h2]
  rcases statusSpec (query.data.map Char.toLower) with _ | s <;> simp

/-- Claim C3 counterexample: in a three-document batch whose second document
fails extraction, the failed record's status string is Analysis Failed, not
Failed as the claim states. -/
theorem process_invoices_status_counterexample :
    ((process_invoices c3env "2026-10-12" ["a.pdf", "b.pdf", "c.pdf"] "Sam" none).map
        (fun r => r.status))
      = ["Fully Reimbursed", "Analysis Failed", "Fully Reimbursed"]
    ∧ ("Analysis Failed" : String) ≠ "Failed" := by
  constructor
  · decide
  · decide

/-- Claim C3 amended: a batch of N documents always yields exactly N result
records; a document whose processing fails at any stage yields a record with
status Analysis Failed, the reason prefixed Processing error, zero amounts
and no document id, while every successfully processed document keeps its
normal result. -/
theorem process_invoices_isolates_failures (env : IngestEnv) (today : String)
    (files : List String) (emp : String) (pol : Option String) :
    (process_invoices env today files emp pol).length = files.length
    ∧ (∀ i p e, files.get? i = some p →
        process_single_invoice env today p emp pol = .error e →
        ∃ rec, (process_invoices env today files emp pol).get? i = some rec
          ∧ rec.status = "Analysis Failed"
          ∧ rec.reason = "Processing error: " ++ e
          ∧ rec.reimbursable_amount = "0.00"
          ∧ rec.total_amount = "0.00"
          ∧ rec.document_id = none)
    ∧ (∀ i p r, files.get? i = some p →
        process_single_invoice env today p emp pol = .ok r →
        (process_invoices env today files emp pol).get? i = some r) := by
  refine ⟨by simp [process_invoices], ?_, ?_⟩
  · intro i p e hf hp
    refine ⟨invoice_error_result today p emp e, ?_, rfl, rfl, rfl, rfl, rfl⟩
    rw [process_invoices, List.get?_map, hf]
    simp [hp]
  · intro i p r hf hp
    rw [process_invoices, List.get?_map, hf]
    simp [hp]

/-- Claim C3 witness: the three-document batch with the failing second
document yields three records, whose second is the error record. -/
theorem process_invoices_isolates_failures_witness :
    (process_invoices c3env "2026-10-12" ["a.pdf", "b.pdf", "c.pdf"] "Sam" none).length = 3
    ∧ ∃ rec, (process_invoices c3env "2026-10-12" ["a.pdf", "b.pdf", "c.pdf"] "Sam" none).get? 1
        = some rec
      ∧ rec.status = "Analysis Failed"
      ∧ rec.reason = "Processing error: " ++ "PDF extraction failed"
      ∧ rec.reimbursable_amount = "0.00"
      ∧ rec.total_amount = "0.00"
      ∧ rec.document_id = none := by
  have h := process_invoices_isolates_failures c3env "2026-10-12"
    ["a.pdf", "b.pdf", "c.pdf"] "Sam" none
  exact ⟨h.1, h.2.1 1 "b.pdf" "PDF extraction failed" rfl rfl⟩

/-- Claim C4 counterexample: a key present with the value None is stored as
the text None, not as unknown. -/
theorem add_invoice_metadata_none_counterexample :
    mdGet (add_invoice_metadata [("invoice_id", PyVal.pynone)]) "invoice_id" ""
      = "None"
    ∧ ("None" : String) ≠ "unknown" := by
  constructor
  · decide
  · decide

/-- Claim C4 amended: every stored metadata value is the str() image of a
Python value; a key that is absent defaults to unknown for the identity
fields and 0.00 for the amount field, while a key present with value None is
stored as str(None), the text None. -/
theorem add_invoice_metadata_defaults (d : List (String × PyVal)) :
    ((d.find? fun p => p.1 = "invoice_id") = none →
      mdGet (add_invoice_metadata d) "invoice_id" "" = "unknown")
    ∧ ((d.find? fun p => p.1 = "employee_name") = none →
      mdGet (add_invoice_metadata d) "employee_name" "" = "unknown")
    ∧ ((d.find? fun p => p.1 = "status") = none →
      mdGet (add_invoice_metadata d) "status" "" = "unknown")
    ∧ ((d.find? fun p => p.1 = "date") = none →
      mdGet (add_invoice_metadata d) "date" "" = "unknown")
    ∧ ((d.find? fun p => p.1 = "reimbursable_amount") = none →
      mdGet (add_invoice_metadata d) "amount" "" = "0.00")
    ∧ ((d.find? fun p => p.1 = "file_name") = none →
      mdGet (add_invoice_metadata d) "file_name" "" = "unknown")
    ∧ ((d.find? fun p => p.1 = "invoice_id") = some ("invoice_id", PyVal.pynone) →
      mdGet (add_invoice_metadata d) "invoice_id" "" = "None")
    ∧ (∀ k v, (add_invoice_metadata d).find? (fun p => p.1 = k) = some (k, v) →
      ∃ pv, v = pyStr pv) := by
  refine ⟨?_, ?_, ?_, ?_, ?_, ?_, ?_, ?_⟩
  · intro h; simp [add_invoice_metadata, mdGet, dictGet, pyStr, h]
  · intro h; simp [add_invoice_metadata, mdGet, dictGet, pyStr, h]
  · intro h; simp [add_invoice_metadata, mdGet, dictGet, pyStr, h]
  · intro h; simp [add_invoice_metadata, mdGet, dictGet, pyStr, h]
  · intro h; simp [add_invoice_metadata, mdGet, dictGet, pyStr, h]
  · intro h; simp [add_invoice_metadata, mdGet, dictGet, pyStr, h]
  · intro h; simp [add_invoice_metadata, mdGet, dictGet, pyStr, h]
  · intro k v h
    have hm := List.mem_of_find?_eq_some h
    simp only [add_invoice_metadata, List.mem_cons, List.not_mem_nil,
      or_false] at hm
    rcases hm with h1 | h1 | h1 | h1 | h1 | h1
      <;> exact ⟨_, congrArg Prod.snd h1⟩

/-- Claim C4 witness: with an empty invoice_data dict every identity field
stores unknown and the amount field stores 0.00; the None counterexample
input stores the text None. -/
theorem add_invoice_metadata_defaults_witness :
    mdGet (add_invoice_metadata []) "invoice_id" "" = "unknown"
    ∧ mdGet (add_invoice_metadata []) "amount" "" = "0.00"
    ∧ mdGet (add_invoice_metadata [("invoice_id", PyVal.pynone)]) "invoice_id" ""
      = "None" :=
  ⟨(add_invoice_metadata_defaults []).1 rfl,
   (add_invoice_metadata_defaults []).2.2.2.2.1 rfl,
   (add_invoice_metadata_defaults [("invoice_id", PyVal.pynone)]).2.2.2.2.2.2.1
     (by decide)⟩

/-- Claim C5 counterexample: with an empty filter mapping and limit one, a
two-document collection yields two results, more than the limit. -/
theorem search_by_metadata_no_limit_counterexample :
    ¬ ((search_by_metadata [docA, docB] [] 1).length ≤ 1) := by decide

/-- Claim C5 amended: when every filter is dropped (empty mapping or only
empty values) the metadata search returns the whole collection and ignores
the limit; when at least one filter value survives, at most limit documents
are returned. -/
theorem search_by_metadata_limits (c : Collection)
    (filters : List (String × String)) (L : Nat) :
    ((effective_filters filters).isEmpty = true →
      (search_by_metadata c filters L).length = c.length)
    ∧ ((effective_filters filters).isEmpty = false →
      (search_by_metadata c filters L).length ≤ L) := by
  constructor
  · intro h
    simp [search_by_metadata, h, collectionGetAll]
  · intro h
    simp only [search_by_metadata, h, Bool.false_eq_true, if_false,
      List.length_map, collectionGet, List.length_take]
    exact Nat.min_le_left _ _

/-- Claim C5 witness: the two-document collection with no filters returns
both documents; with the Alice filter and limit one it returns at most
one. -/
theorem search_by_metadata_limits_witness :
    (search_by_metadata [docA, docB] [] 1).length = 2
    ∧ (search_by_metadata [docA, docB] [("employee_name", "Alice")] 1).length ≤ 1 := by
  have h := search_by_metadata_limits [docA, docB] [] 1
  have h' := search_by_metadata_limits [docA, docB] [("employee_name", "Alice")] 1
  exact ⟨h.1 rfl, h'.2 (by decide)⟩

/-- Claim C6 counterexample: deleting an id that is not in the collection
returns True, not False: the underlying delete is a silent no-op and the
wrapper only returns False when the delete raises. -/
theorem delete_invoice_missing_counterexample :
    (delete_invoice [] "missing-id").1 ≠ false := by decide

/-- Claim C6 amended: deleting an id not present in the collection returns
True without raising and leaves the collection unchanged, and a second
delete of the same id again returns True with the collection unchanged. -/
theorem delete_invoice_missing_id (c : Collection) (doc_id : String)
    (h : ∀ d ∈ c, d.id ≠ doc_id) :
    delete_invoice c doc_id = (true, c)
    ∧ delete_invoice (delete_invoice c doc_id).2 doc_id = (true, c) := by
  have hc : collectionDelete c [doc_id] = c := by
    apply List.filter_eq_self.mpr
    intro d hd
    simp [h d hd]
  constructor
  · simp [delete_invoice, hc]
  · simp [delete_invoice, hc]

/-- Claim C6 witness: deleting a missing id from the one-document collection
returns True and keeps the document. -/
theorem delete_invoice_missing_id_witness :
    delete_invoice [docA] "missing-id" = (true, [docA]) :=
  (delete_invoice_missing_id [docA] "missing-id" (by decide)).1

/-- Claim C7 counterexample: the empty input list does not fail; it returns
an empty result list before any filtering happens. -/
theorem generate_embeddings_empty_ok :
    generate_embeddings encLen [] = .ok []
    ∧ ∀ e, generate_embeddings encLen [] ≠ .error e := by
  refine ⟨rfl, fun e h => ?_⟩
  rw [show generate_embeddings encLen [] = .ok [] from rfl] at h
  exact Except.noConfusion h

/-- Claim C7 amended: the empty list returns an empty result without error;
a non-empty list whose entries are all empty or whitespace-only fails with
the wrapped no-valid-texts error; otherwise the empty entries are dropped
and one vector is returned per surviving entry, in the survivors' order. -/
theorem generate_embeddings_behavior (enc : Encoder) (texts : List String)
    (henc : ∀ l, (enc l).length = l.length) :
    (texts = [] → generate_embeddings enc texts = .ok [])
    ∧ (texts ≠ [] → clean_texts_of texts = [] →
      generate_embeddings enc texts
        = .error "Batch embedding generation failed: No valid texts provided")
    ∧ (clean_texts_of texts ≠ [] →
      generate_embeddings enc texts = .ok (enc (clean_texts_of texts))
      ∧ (enc (clean_texts_of texts)).length = (clean_texts_of texts).length) := by
  refine ⟨?_, ?_, ?_⟩
  · intro h
    subst h
    rfl
  · intro hne hcl
    simp [generate_embeddings, List.isEmpty_iff, hne, hcl]
  · intro hcl
    have ht : texts ≠ [] := by
      intro h
      subst h
      simp [clean_texts_of] at hcl
    refine ⟨?_, henc _⟩
    simp [generate_embeddings, List.isEmpty_iff, ht, hcl]

/-- Claim C7 witness: a non-empty all-whitespace batch fails with the
wrapped error, while a batch with one surviving entry returns exactly the
encoding of that stripped survivor. -/
theorem generate_embeddings_behavior_witness :
    generate_embeddings encLen ["", "   "]
      = .error "Batch embedding generation failed: No valid texts provided"
    ∧ generate_embeddings encLen ["", " hi "] = .ok (encLen ["hi"]) := by
  have h1 := generate_embeddings_behavior encLen ["", "   "]
    (fun l => by simp [encLen])
  have h2 := generate_embeddings_behavior encLen ["", " hi "]
    (fun l => by simp [encLen])
  refine ⟨h1.2.1 (by decide) (by decide), ?_⟩
  have hcl : clean_texts_of ["", " hi "] = ["hi"] := by decide
  have := (h2.2.2 (by rw [hcl]; exact List.cons_ne_nil _ _)).1
  rwa [hcl] at this

/-- Claim C9: compute_similarity returns zero whenever either vector has
zero norm, lies in the interval from minus one to one for vectors of equal
length with non-zero norms, and equals one on any non-zero vector paired
with itself. -/
theorem compute_similarity_spec (a b v : List ℝ) (hab : a.length = b.length)
    (ha : normR a ≠ 0) (hb : normR b ≠ 0) (hv : ∃ x ∈ v, x ≠ 0) :
    (∀ a' b' : List ℝ, normR a' = 0 ∨ normR b' = 0 →
      compute_similarity a' b' = 0)
    ∧ -1 ≤ compute_similarity a b
    ∧ compute_similarity a b ≤ 1
    ∧ compute_similarity v v = 1 := by
  obtain ⟨x, hxv, hx0⟩ := hv
  have hposv : 0 < sumSq v := sumSq_pos_of_mem v x hxv hx0
  have hnv : normR v ≠ 0 := by
    rw [Ne, normR_eq_zero_iff]
    exact ne_of_gt hposv
  have hpa : 0 < normR a := lt_of_le_of_ne (normR_nonneg a) (Ne.symm ha)
  have hpb : 0 < normR b := lt_of_le_of_ne (normR_nonneg b) (Ne.symm hb)
  have hp : 0 < normR a * normR b := mul_pos hpa hpb
  have habs := abs_dotR_le a b
  have hsim : compute_similarity a b = dotR a b / (normR a * normR b) := by
    simp [compute_similarity, ha, hb]
  refine ⟨?_, ?_, ?_, ?_⟩
  · intro a' b' h
    simp [compute_similarity, h]
  · rw [hsim, le_div_iff hp]
    have := (abs_le.mp habs).1
    linarith
  · rw [hsim, div_le_one hp]
    exact (abs_le.mp habs).2
  · have hs : compute_similarity v v = dotR v v / (normR v * normR v) := by
      simp [compute_similarity, hnv]
    rw [hs, mul_self_normR, show dotR v v = sumSq v from rfl]
    exact div_self (ne_of_gt hposv)

/-- Claim C9 witness: concrete orthogonal unit vectors of equal length and
the non-zero one-entry vector, whose self-similarity is one. -/
theorem compute_similarity_spec_witness :
    ([(1 : ℝ), 0].length = [(0 : ℝ), 1].length)
    ∧ compute_similarity [(1 : ℝ)] [(1 : ℝ)] = 1 := by
  have hs1 : sumSq [(1 : ℝ), 0] = 1 := by
    simp [sumSq, dotR]
  have hs2 : sumSq [(0 : ℝ), 1] = 1 := by
    simp [sumSq, dotR]
  have hn1 : normR [(1 : ℝ), 0] ≠ 0 := by
    rw [normR, hs1, Real.sqrt_one]
    exact one_ne_zero
  have hn2 : normR [(0 : ℝ), 1] ≠ 0 := by
    rw [normR, hs2, Real.sqrt_one]
    exact one_ne_zero
  have h := compute_similarity_spec [(1 : ℝ), 0] [(0 : ℝ), 1] [(1 : ℝ)] rfl
    hn1 hn2 ⟨1, by simp, one_ne_zero⟩
  exact ⟨rfl, h.2.2.2⟩

/-- Claim C10: whenever the generator succeeds, process_chat_message stores
a session whose history is the previous history extended by exactly the
user message followed by the assistant message, so the length grows by two,
and last_query becomes the user's message. -/
theorem process_chat_message_appends_two (env : ChatEnv) (now : String)
    (st : SessionStore) (message sid : String) (response : String)
    (hg : env.generate_chat_response message (retrieve_context env message)
        (lastN 10 ((sessionFor st sid).messages ++ [⟨"user", message, now⟩]))
        = .ok response) :
    ∃ resp st' s', process_chat_message env now st message sid = (.ok resp, st')
      ∧ resp.response = response
      ∧ storeGet? st' sid = some s'
      ∧ s'.messages = (sessionFor st sid).messages
          ++ [⟨"user", message, now⟩, ⟨"assistant", response, now⟩]
      ∧ s'.messages.length = (sessionFor st sid).messages.length + 2
      ∧ s'.last_query = some message := by
  have heq : process_chat_message env now st message sid
      = (.ok
          { response := response
            session_id := sid
            query := message
            timestamp := now
            context_used := decide (0 < (retrieve_context env message).length)
            retrieved_count := (retrieve_context env message).length },
         storeSet st sid
          { session_id := (sessionFor st sid).session_id
            messages := ((sessionFor st sid).messages ++ [⟨"user", message, now⟩])
              ++ [⟨"assistant", response, now⟩]
            last_query := some message
            retrieved_documents := retrieve_context env message }) := by
    simp only [process_chat_message]
    rw [hg]
  refine ⟨_, _, _, heq, rfl, storeGet?_storeSet _ _ _, ?_, ?_, rfl⟩
  · simp
  · simp

/-- Claim C10 witness: a fresh session processed with the all-succeeding
environment ends with exactly the user and assistant messages and the
last query set. -/
theorem process_chat_message_appends_two_witness :
    ∃ resp st' s', process_chat_message c10env "t0" [] "hi" "s1" = (.ok resp, st')
      ∧ resp.response = "hello there"
      ∧ storeGet? st' "s1" = some s'
      ∧ s'.messages = (sessionFor [] "s1").messages
          ++ [⟨"user", "hi", "t0"⟩, ⟨"assistant", "hello there", "t0"⟩]
      ∧ s'.messages.length = (sessionFor [] "s1").messages.length + 2
      ∧ s'.last_query = some "hi" :=
  process_chat_message_appends_two c10env "t0" [] "hi" "s1" "hello there" rfl

end InvoiceRAG
